import Mathlib

/-!
Shallow embedding of the snake game's simulation core, translated from the
repository's JavaScript sources:

  * `src/constants.js`  — gameplay constants (grid size, scoring, timing)
  * `src/utils.js`      — `coordsEqual`, `coordInList`, `tickIntervalForLevel`
  * `src/snake.js`      — the `Snake` class (body, direction queue, movement)
  * `src/food.js`       — the `Food` class (spawn on a free cell, eat check)
  * `src/state.js`      — the `GameState` screen machine and scoring
  * `src/storage.js`    — `loadHighScore` / `saveHighScore` persistence
  * `src/game.js`       — `Game._tick`, one discrete simulation step

JavaScript numbers that are always integers in this program are modelled as
`Int` (coordinates, which may leave the grid) or `Nat` (scores, levels,
lengths, which never go negative).  The one non-integer corner —
`Number.isFinite` rejecting `NaN`/`Infinity` in `saveHighScore` — is
unrepresentable in the `Int` model, where every value is finite.
`Math.random()` draws are abstracted by an explicit `pick : Nat` parameter:
`randomInt(0, n-1)` is modelled as `pick % n`, which ranges over exactly the
same interval `[0, n-1]`.
-/

namespace SnakeGame

/-! ## Constants (src/constants.js) -/

def GRID_SIZE : Nat := 20
def BASE_TICK_MS : Int := 200
def SPEED_INCREMENT_MS : Int := 20
def MIN_TICK_MS : Int := 60
def POINTS_PER_FOOD : Nat := 10
def POINTS_PER_LEVEL : Nat := 50
def MAX_LEVEL : Nat := 10
def MAX_DIRECTION_QUEUE : Nat := 2

/-! ## Coordinates and directions -/

/-- A grid coordinate.  `x`/`y` are `Int` because a moving head can step
outside the `[0, gridSize)` range (that is exactly what `isOutOfBounds`
detects). -/
structure Coord where
  x : Int
  y : Int
deriving DecidableEq

/-- The four direction constants of `constants.js` (`DIRECTIONS`). -/
inductive Dir where
  | UP
  | DOWN
  | LEFT
  | RIGHT
deriving DecidableEq

/-- `dx` component of a direction's unit delta. -/
def Dir.dx : Dir → Int
  | .UP => 0
  | .DOWN => 0
  | .LEFT => -1
  | .RIGHT => 1

/-- `dy` component of a direction's unit delta. -/
def Dir.dy : Dir → Int
  | .UP => -1
  | .DOWN => 1
  | .LEFT => 0
  | .RIGHT => 0

/-- `OPPOSITE_DIRECTIONS` from `constants.js`. -/
def Dir.opposite : Dir → Dir
  | .UP => .DOWN
  | .DOWN => .UP
  | .LEFT => .RIGHT
  | .RIGHT => .LEFT

/-! ## utils.js -/

/-- `coordsEqual(a, b)` from `utils.js`: same cell. -/
def coordsEqual (a b : Coord) : Bool :=
  a.x == b.x && a.y == b.y

/-- `coordInList(coord, list)` from `utils.js`:
`list.some(cell => coordsEqual(cell, coord))`. -/
def coordInList (coord : Coord) (l : List Coord) : Bool :=
  l.any (fun cell => coordsEqual cell coord)

/-- `tickIntervalForLevel(level, baseTick, increment, minTick)` from
`utils.js`: `max(baseTick - (level - 1) * increment, minTick)`. -/
def tickIntervalForLevel (level baseTick increment minTick : Int) : Int :=
  max (baseTick - (level - 1) * increment) minTick

/-! ## Snake (src/snake.js) -/

structure Snake where
  gridSize : Nat
  /-- Head-first body: `body[0]` is the head. -/
  body : List Coord
  direction : Dir
  directionQueue : List Dir
  pendingGrowth : Bool
deriving DecidableEq

/-- The `Snake` constructor: three segments centred on the grid, pointing
RIGHT, with an empty direction queue and no pending growth. -/
def Snake.init (gridSize : Nat) : Snake :=
  let midY : Int := (gridSize : Int) / 2
  let midX : Int := (gridSize : Int) / 2
  { gridSize := gridSize
    body := [⟨midX, midY⟩, ⟨midX - 1, midY⟩, ⟨midX - 2, midY⟩]
    direction := .RIGHT
    directionQueue := []
    pendingGrowth := false }

/-- The `head` getter: `body[0]`.  A defaulted lookup stands in for the
JavaScript access; the body of any constructed snake is never empty. -/
def Snake.head (s : Snake) : Coord :=
  s.body.headD ⟨0, 0⟩

/-- The effective current direction used by `enqueueDirection`: the last
queued direction if the queue is non-empty, else the active direction. -/
def Snake.effectiveDirection (s : Snake) : Dir :=
  match s.directionQueue.getLast? with
  | some d => d
  | none => s.direction

/-- `Snake.enqueueDirection(newDir)`: silently rejects a reversal of the
effective direction, a duplicate of it, or a push onto a full queue;
otherwise appends `newDir` to the queue. -/
def Snake.enqueueDirection (s : Snake) (newDir : Dir) : Snake :=
  let eff := s.effectiveDirection
  if newDir = eff.opposite then s
  else if newDir = eff then s
  else if MAX_DIRECTION_QUEUE ≤ s.directionQueue.length then s
  else { s with directionQueue := s.directionQueue ++ [newDir] }

/-- `Snake.move()`: shift one queued direction into the active direction (if
any), compute the new head from the old head plus the active delta, prepend
it, then pop the tail unless growth is pending; the growth flag is cleared.
Returns the new head together with the updated snake. -/
def Snake.move (s : Snake) : Coord × Snake :=
  let dir := s.directionQueue.headD s.direction
  let queue := s.directionQueue.tail
  let oldHead := s.body.headD ⟨0, 0⟩
  let newHead : Coord := ⟨oldHead.x + dir.dx, oldHead.y + dir.dy⟩
  let unshifted := newHead :: s.body
  let body2 := if s.pendingGrowth then unshifted else unshifted.dropLast
  (newHead,
   { s with
     direction := dir
     directionQueue := queue
     body := body2
     pendingGrowth := false })

/-- `Snake.grow()`: set the pending-growth flag. -/
def Snake.grow (s : Snake) : Snake :=
  { s with pendingGrowth := true }

/-- `Snake.isOutOfBounds()`: head outside `[0, gridSize)` on either axis. -/
def Snake.isOutOfBounds (s : Snake) : Bool :=
  decide (s.head.x < 0) || decide ((s.gridSize : Int) ≤ s.head.x) ||
  decide (s.head.y < 0) || decide ((s.gridSize : Int) ≤ s.head.y)

/-- `Snake.isSelfColliding()`: head equals some non-head segment. -/
def Snake.isSelfColliding (s : Snake) : Bool :=
  coordInList s.head s.body.tail

/-- `Snake.isDead()`: wall OR self collision. -/
def Snake.isDead (s : Snake) : Bool :=
  s.isOutOfBounds || s.isSelfColliding

/-- `Snake.occupies(coord)`: coordinate matches any body segment. -/
def Snake.occupies (s : Snake) (coord : Coord) : Bool :=
  coordInList coord s.body

/-! ## Food (src/food.js) -/

structure Food where
  gridSize : Nat
  /-- `none` models the JavaScript `null` position (inactive food). -/
  position : Option Coord
deriving DecidableEq

/-- The `isActive` getter: `position !== null`. -/
def Food.isActive (f : Food) : Bool :=
  f.position.isSome

/-- All grid cells in the row-major order of `spawn`'s nested loops
(`y` outer, `x` inner). -/
def allCells (gridSize : Nat) : List Coord :=
  (List.range gridSize).flatMap fun (y : Nat) =>
    (List.range gridSize).map fun (x : Nat) => ⟨(x : Int), (y : Int)⟩

/-- The free cells collected by `Food.spawn`: every grid cell not present in
`occupiedCells` (by `coordsEqual`). -/
def freeCellsOf (gridSize : Nat) (occupiedCells : List Coord) : List Coord :=
  (allCells gridSize).filter fun cell => !(coordInList cell occupiedCells)

/-- A coordinate inside the `[0, gridSize)` square. -/
def inGrid (gridSize : Nat) (c : Coord) : Prop :=
  0 ≤ c.x ∧ c.x < (gridSize : Int) ∧ 0 ≤ c.y ∧ c.y < (gridSize : Int)

instance (n : Nat) (c : Coord) : Decidable (inGrid n c) := by
  unfold inGrid
  infer_instance

/-- `Food.spawn(occupiedCells)`: collect the free cells; if none remain, the
position becomes `null` (board full); otherwise a random free cell is
chosen.  The random draw `randomInt(0, freeCells.length - 1)` is abstracted
by `pick % freeCells.length`. -/
def Food.spawn (f : Food) (occupiedCells : List Coord) (pick : Nat) : Food :=
  let freeCells := freeCellsOf f.gridSize occupiedCells
  if freeCells.length = 0 then
    { f with position := none }
  else
    { f with position := some (freeCells.getD (pick % freeCells.length) ⟨0, 0⟩) }

/-- `Food.isEatenBy(coord)`: false when inactive, else coordinate equality
with the current position. -/
def Food.isEatenBy (f : Food) (coord : Coord) : Bool :=
  match f.position with
  | none => false
  | some p => coordsEqual p coord

/-! ## GameState (src/state.js) -/

/-- `SCREENS` from `constants.js`. -/
inductive Screen where
  | MENU
  | PLAYING
  | PAUSED
  | GAME_OVER
  | WIN
deriving DecidableEq

structure GameState where
  screen : Screen
  score : Nat
  highScore : Nat
  level : Nat
  isNewRecord : Bool
deriving DecidableEq

/-- The `GameState` constructor. -/
def GameState.init (initialHighScore : Nat) : GameState :=
  { screen := .MENU
    score := 0
    highScore := initialHighScore
    level := 1
    isNewRecord := false }

/-- `startGame()`: reset score/level/new-record and enter PLAYING
(unconditionally — the method itself has no screen guard). -/
def GameState.startGame (st : GameState) : GameState :=
  { st with score := 0, level := 1, isNewRecord := false, screen := .PLAYING }

/-- `pause()`: PLAYING → PAUSED, no-op otherwise. -/
def GameState.pause (st : GameState) : GameState :=
  if st.screen = .PLAYING then { st with screen := .PAUSED } else st

/-- `resume()`: PAUSED → PLAYING, no-op otherwise. -/
def GameState.resume (st : GameState) : GameState :=
  if st.screen = .PAUSED then { st with screen := .PLAYING } else st

/-- `_updateHighScore()`: replace the high score with the score, and set the
new-record flag, exactly when the score strictly exceeds it. -/
def GameState.updateHighScore (st : GameState) : GameState :=
  if st.highScore < st.score then
    { st with highScore := st.score, isNewRecord := true }
  else st

/-- `endGame()`: update the high score, then enter GAME_OVER
(unconditionally). -/
def GameState.endGame (st : GameState) : GameState :=
  { st.updateHighScore with screen := .GAME_OVER }

/-- `win()`: update the high score, then enter WIN (unconditionally). -/
def GameState.win (st : GameState) : GameState :=
  { st.updateHighScore with screen := .WIN }

/-- `returnToMenu()`: enter MENU (unconditionally). -/
def GameState.returnToMenu (st : GameState) : GameState :=
  { st with screen := .MENU }

/-- `addScore()`: add `POINTS_PER_FOOD`, recompute the level as
`min(floor(score / POINTS_PER_LEVEL) + 1, MAX_LEVEL)`, and report
`(leveledUp, newLevel)` alongside the updated state. -/
def GameState.addScore (st : GameState) : GameState × Bool × Nat :=
  let oldLevel := st.level
  let score2 := st.score + POINTS_PER_FOOD
  let level2 := min (score2 / POINTS_PER_LEVEL + 1) MAX_LEVEL
  let st2 := { st with score := score2, level := level2 }
  (st2, decide (oldLevel < level2), level2)

/-! ## Storage (src/storage.js)

The `localStorage` cell behind the high-score key is modelled as
`Option (Option Int)`:
  * `none`            — `safeGet` returned `null` (missing key or read error);
  * `some none`       — a raw string is present but `parseInt` yields `NaN`;
  * `some (some n)`   — `parseInt` yields the integer `n`.
`safeSet` of `String(score)` stores a value that parses back to `score`. -/

abbrev Store : Type := Option (Option Int)

/-- `loadHighScore()`: 0 when the cell is missing/unreadable, the parse is
`NaN`, or the parsed value is negative; the parsed value otherwise. -/
def loadHighScore (store : Store) : Int :=
  match store with
  | none => 0
  | some none => 0
  | some (some parsed) => if 0 ≤ parsed then parsed else 0

/-- `saveHighScore(score)`: refuse negative input (the `Number.isFinite`
guard is vacuous over `Int`); write `String(score)` only when `score`
strictly exceeds the currently loaded high score. -/
def saveHighScore (score : Int) (store : Store) : Store :=
  if score < 0 then store
  else if loadHighScore store < score then some (some score)
  else store

/-! ## Game tick (src/game.js, `Game._tick`) -/

/-- The subsystems touched by one `Game._tick` call.  `store` is the
persisted high-score cell written through `saveHighScore`; audio cues and
screen-shake are frame-local side effects outside the simulation state. -/
structure Game where
  snake : Snake
  food : Food
  state : GameState
  store : Store
deriving DecidableEq

/-- `Game._tick()`: move the snake; if dead, end the game and persist the
high score; else if the new head eats the food, grow, add score, and respawn
the food against the snake's body — entering WIN (and persisting) when no
free cell remains. -/
def Game.tick (g : Game) (pick : Nat) : Game :=
  let moved := g.snake.move
  let newHead := moved.1
  let s1 := moved.2
  if s1.isDead then
    let st1 := g.state.endGame
    { g with
      snake := s1
      state := st1
      store := saveHighScore (st1.highScore : Int) g.store }
  else if g.food.isEatenBy newHead then
    let s2 := s1.grow
    let st1 := (g.state.addScore).1
    let f1 := g.food.spawn s2.body pick
    if f1.isActive then
      { g with snake := s2, food := f1, state := st1 }
    else
      let st2 := st1.win
      { g with
        snake := s2
        food := f1
        state := st2
        store := saveHighScore (st2.highScore : Int) g.store }
  else
    { g with snake := s1 }

/-- A concrete game whose snake dies on the next tick: the head sits at the
right edge of a 3×3 grid heading RIGHT. -/
def tickDeadGame : Game :=
  { snake := ⟨3, [⟨2, 1⟩, ⟨1, 1⟩, ⟨0, 1⟩], .RIGHT, [], false⟩
    food := ⟨3, some ⟨0, 0⟩⟩
    state := ⟨.PLAYING, 0, 0, 1, false⟩
    store := none }

/-- A concrete game whose snake eats the food on the next tick. -/
def tickEatGame : Game :=
  { snake := ⟨3, [⟨0, 0⟩], .RIGHT, [], false⟩
    food := ⟨3, some ⟨1, 0⟩⟩
    state := ⟨.PLAYING, 0, 0, 1, false⟩
    store := none }

/-- A concrete game whose snake survives the next tick without eating. -/
def tickMissGame : Game :=
  { snake := ⟨3, [⟨0, 0⟩], .RIGHT, [], false⟩
    food := ⟨3, some ⟨2, 2⟩⟩
    state := ⟨.PLAYING, 0, 0, 1, false⟩
    store := none }

/-! ## Operation sequences over a snake (for the contiguity invariant) -/

/-- One public mutating operation on a `Snake`. -/
inductive SnakeOp where
  | enq (d : Dir)
  | growOp
  | moveOp
deriving DecidableEq

/-- Apply one operation. -/
def applySnakeOp (s : Snake) : SnakeOp → Snake
  | .enq d => s.enqueueDirection d
  | .growOp => s.grow
  | .moveOp => (s.move).2

/-- Run a finite sequence of operations from a given snake. -/
def runSnakeOps (s : Snake) (ops : List SnakeOp) : Snake :=
  ops.foldl applySnakeOp s

/-- Two cells at Manhattan distance exactly 1. -/
def adjacentCells (a b : Coord) : Prop :=
  (a.x - b.x).natAbs + (a.y - b.y).natAbs = 1

instance : DecidablePred fun p : Coord × Coord => adjacentCells p.1 p.2 := by
  intro p
  unfold adjacentCells
  infer_instance

/-- Every pair of consecutive body segments is adjacent. -/
def contiguous (body : List Coord) : Prop :=
  List.Chain' adjacentCells body

/-! ## Theorems -/

/-- C1: `enqueueDirection(d)` is a silent no-op — the whole snake (pending
queue, active direction, body) is left unchanged and no error is raised —
whenever `d` is the opposite of the effective current direction (last-queued
direction if the queue is non-empty, else the active direction), whenever
`d` equals that effective direction, or whenever the queue already holds
`MAX_DIRECTION_QUEUE = 2` (or more) entries; this covers every queue fill
state. -/
theorem enqueueDirection_noop (s : Snake) (d : Dir)
    (h : d = s.effectiveDirection.opposite ∨ d = s.effectiveDirection ∨
         MAX_DIRECTION_QUEUE ≤ s.directionQueue.length) :
    s.enqueueDirection d = s := by
  simp only [Snake.enqueueDirection]
  split_ifs with h1 h2 h3
  · rfl
  · rfl
  · rfl
  · exfalso
    rcases h with h | h | h
    · exact h1 h
    · exact h2 h
    · exact h3 h

/-- Witness for C1: on a freshly constructed snake (facing RIGHT, empty
queue), enqueueing LEFT — the opposite of the effective direction — changes
nothing. -/
theorem enqueueDirection_noop_witness :
    (Snake.init 10).enqueueDirection Dir.LEFT = Snake.init 10 :=
  enqueueDirection_noop (Snake.init 10) Dir.LEFT (Or.inl (by decide))

/-- C2: `move()` pops the front of the direction queue (if non-empty) into
the active direction, returns the new head (old head plus the active
direction's unit delta), prepends it to the body, grows by exactly one
segment when growth is pending and keeps the length otherwise, and clears
the growth flag; `grow()` is idempotent before a move, so two `grow()` calls
still add exactly one segment on the next `move()`. -/
theorem move_spec (s : Snake) (h : s.body ≠ []) :
    (s.move).2.directionQueue = s.directionQueue.tail ∧
    (s.move).2.direction = s.directionQueue.headD s.direction ∧
    (s.move).1 = ⟨s.head.x + ((s.move).2.direction).dx,
                  s.head.y + ((s.move).2.direction).dy⟩ ∧
    (s.move).2.body.head? = some (s.move).1 ∧
    (s.move).2.body.length =
      (if s.pendingGrowth then s.body.length + 1 else s.body.length) ∧
    (s.move).2.pendingGrowth = false ∧
    s.grow.grow = s.grow ∧
    ((s.grow).move).2.body.length = s.body.length + 1 := by
  obtain ⟨gs, body, dir, q, pg⟩ := s
  cases body with
  | nil => exact absurd rfl h
  | cons a t =>
    refine ⟨rfl, rfl, rfl, ?_, ?_, rfl, rfl, ?_⟩
    · cases pg <;> simp [Snake.move, List.dropLast]
    · cases pg <;> simp [Snake.move, List.length_dropLast]
    · simp [Snake.move, Snake.grow]

/-- Witness for C2: evaluated on a freshly constructed snake on a 10×10
grid, whose body is non-empty. -/
theorem move_spec_witness :
    ((Snake.init 10).move).2.body.length =
      (if (Snake.init 10).pendingGrowth
       then (Snake.init 10).body.length + 1
       else (Snake.init 10).body.length) :=
  (move_spec (Snake.init 10) (by decide)).2.2.2.2.1

/-- C6: `addScore()` adds the fixed per-food amount (10) to the score,
recomputes the level as `min(floor(score / 50) + 1, 10)` from the updated
score, reports `leveledUp = true` exactly when the recomputed level exceeds
the level before the call, returns the resulting level, and never lets the
level exceed the maximum (10). -/
theorem addScore_spec (st : GameState) :
    (st.addScore).1.score = st.score + 10 ∧
    (st.addScore).1.level = min ((st.addScore).1.score / 50 + 1) 10 ∧
    ((st.addScore).2.1 = true ↔ st.level < (st.addScore).1.level) ∧
    (st.addScore).2.2 = (st.addScore).1.level ∧
    (st.addScore).1.level ≤ 10 := by
  refine ⟨rfl, rfl, ?_, rfl, ?_⟩
  · simp [GameState.addScore]
  · simp [GameState.addScore, MAX_LEVEL]

/-- C8: `tickIntervalForLevel` equals `max(base - (level - 1) * increment,
min)`; at level 1 with the shipped constants it equals the base interval;
for positive increment it strictly decreases from one level to the next
while the raw value stays at or above the floor; and with the shipped
constants (base 200, increment 20, floor 60) it is `200 - (level - 1) * 20`
through level 8 and stays 60 for every level at or above 8. -/
theorem tickIntervalForLevel_spec :
    (∀ l b i m : Int, tickIntervalForLevel l b i m = max (b - (l - 1) * i) m) ∧
    tickIntervalForLevel 1 BASE_TICK_MS SPEED_INCREMENT_MS MIN_TICK_MS =
      BASE_TICK_MS ∧
    (∀ l b i m : Int, 0 < i → m ≤ b - l * i →
       tickIntervalForLevel (l + 1) b i m < tickIntervalForLevel l b i m) ∧
    (∀ l : Int, 1 ≤ l → l ≤ 8 →
       tickIntervalForLevel l BASE_TICK_MS SPEED_INCREMENT_MS MIN_TICK_MS =
         200 - (l - 1) * 20) ∧
    (∀ l : Int, 8 ≤ l →
       tickIntervalForLevel l BASE_TICK_MS SPEED_INCREMENT_MS MIN_TICK_MS = 60) := by
  refine ⟨fun l b i m => rfl, by decide, ?_, ?_, ?_⟩
  · intro l b i m hi hm
    have e1 : b - (l + 1 - 1) * i = b - l * i := by ring
    have e2 : b - (l - 1) * i = b - l * i + i := by ring
    rw [tickIntervalForLevel, tickIntervalForLevel, e1, e2,
        max_eq_left hm, max_eq_left (by linarith)]
    linarith
  · intro l h1 h8
    simp only [tickIntervalForLevel, BASE_TICK_MS, SPEED_INCREMENT_MS, MIN_TICK_MS]
    omega
  · intro l h8
    simp only [tickIntervalForLevel, BASE_TICK_MS, SPEED_INCREMENT_MS, MIN_TICK_MS]
    omega

/-- Witness for C8: with the shipped constants the interval strictly drops
from level 2 to level 3, equals 120 at level 5, and is pinned at 60 at
level 12. -/
theorem tickIntervalForLevel_spec_witness :
    tickIntervalForLevel (2 + 1) 200 20 60 < tickIntervalForLevel 2 200 20 60 ∧
    tickIntervalForLevel 5 BASE_TICK_MS SPEED_INCREMENT_MS MIN_TICK_MS =
      200 - (5 - 1) * 20 ∧
    tickIntervalForLevel 12 BASE_TICK_MS SPEED_INCREMENT_MS MIN_TICK_MS = 60 :=
  ⟨tickIntervalForLevel_spec.2.2.1 2 200 20 60 (by decide) (by decide),
   tickIntervalForLevel_spec.2.2.2.1 5 (by decide) (by decide),
   tickIntervalForLevel_spec.2.2.2.2 12 (by decide)⟩

/-- C4 counterexample: the claim says `start` while PLAYING leaves the whole
state unchanged, but `GameState.startGame` has no screen guard: from
PLAYING with score 10 it resets the score to 0, changing the state. -/
theorem startGame_playing_changes_state :
    (GameState.startGame ⟨Screen.PLAYING, 10, 0, 1, false⟩ ≠
      (⟨Screen.PLAYING, 10, 0, 1, false⟩ : GameState)) := by
  decide

/-- C4 (amended): `pause` when not PLAYING and `resume` when not PAUSED are
silent no-ops leaving the whole state unchanged; the other methods are
unguarded and never raise: `startGame` resets score/level/new-record and
enters PLAYING from any screen, `returnToMenu` enters MENU from any screen,
and `endGame`/`win` enter GAME_OVER/WIN from any screen. -/
theorem gameState_unlisted_events (st : GameState) :
    (st.screen ≠ .PLAYING → st.pause = st) ∧
    (st.screen ≠ .PAUSED → st.resume = st) ∧
    st.startGame =
      { st with screen := .PLAYING, score := 0, level := 1, isNewRecord := false } ∧
    st.returnToMenu = { st with screen := .MENU } ∧
    st.endGame.screen = .GAME_OVER ∧
    st.win.screen = .WIN := by
  refine ⟨?_, ?_, rfl, rfl, rfl, rfl⟩
  · intro hs
    simp [GameState.pause, hs]
  · intro hs
    simp [GameState.resume, hs]

/-- Witness for C4: on a fresh MENU state, `pause` and `resume` are both
no-ops. -/
theorem gameState_unlisted_events_witness :
    (GameState.init 0).pause = GameState.init 0 ∧
    (GameState.init 0).resume = GameState.init 0 :=
  ⟨(gameState_unlisted_events (GameState.init 0)).1 (by decide),
   (gameState_unlisted_events (GameState.init 0)).2.1 (by decide)⟩

/-- C5: every `GameState` operation leaves the high score unchanged or
increases it; on `endGame` and `win` the high score is replaced by the score
exactly when the score strictly exceeds it, and — starting from a state
whose new-record flag is clear, as every PLAYING state reached through
`startGame` is — the flag ends up set exactly in that case. -/
theorem highScore_never_decreases (st : GameState) :
    st.startGame.highScore = st.highScore ∧
    st.pause.highScore = st.highScore ∧
    st.resume.highScore = st.highScore ∧
    st.returnToMenu.highScore = st.highScore ∧
    (st.addScore).1.highScore = st.highScore ∧
    st.endGame.highScore =
      (if st.highScore < st.score then st.score else st.highScore) ∧
    st.win.highScore =
      (if st.highScore < st.score then st.score else st.highScore) ∧
    st.highScore ≤ st.endGame.highScore ∧
    st.highScore ≤ st.win.highScore ∧
    (st.isNewRecord = false →
      st.endGame.isNewRecord = decide (st.highScore < st.score)) ∧
    (st.isNewRecord = false →
      st.win.isNewRecord = decide (st.highScore < st.score)) := by
  have hpause : st.pause.highScore = st.highScore := by
    unfold GameState.pause
    split_ifs <;> rfl
  have hresume : st.resume.highScore = st.highScore := by
    unfold GameState.resume
    split_ifs <;> rfl
  have hupd : st.updateHighScore.highScore =
      (if st.highScore < st.score then st.score else st.highScore) := by
    unfold GameState.updateHighScore
    split_ifs <;> rfl
  have hflag : st.isNewRecord = false →
      st.updateHighScore.isNewRecord = decide (st.highScore < st.score) := by
    intro hr
    unfold GameState.updateHighScore
    split_ifs with hlt <;> simp [hlt, hr]
  refine ⟨rfl, hpause, hresume, rfl, rfl, hupd, hupd, ?_, ?_, hflag, hflag⟩
  · rw [show st.endGame.highScore = st.updateHighScore.highScore from rfl, hupd]
    split_ifs with hlt <;> omega
  · rw [show st.win.highScore = st.updateHighScore.highScore from rfl, hupd]
    split_ifs with hlt <;> omega

/-- Witness for C5: a fresh state has a clear new-record flag, and ending
the game there sets the flag according to `highScore < score`. -/
theorem highScore_never_decreases_witness :
    (GameState.init 0).endGame.isNewRecord =
      decide ((GameState.init 0).highScore < (GameState.init 0).score) :=
  (highScore_never_decreases (GameState.init 0)).2.2.2.2.2.2.2.2.2.1 rfl

/-- Single-save step for C10: one `saveHighScore` call never lowers the
loaded high score. -/
theorem loadHighScore_le_save (score : Int) (store : Store) :
    loadHighScore store ≤ loadHighScore (saveHighScore score store) := by
  unfold saveHighScore
  split_ifs with hneg hlt
  · exact le_refl _
  · have : loadHighScore (some (some score)) = score := by
      simp only [loadHighScore]
      rw [if_pos (by omega)]
    omega
  · exact le_refl _

/-- C10: `loadHighScore` always returns a non-negative value, and returns 0
when the cell is missing/unreadable, when the stored string parses to `NaN`,
or when the parsed value is negative; `saveHighScore` changes the store only
when the given score is non-negative and strictly exceeds the currently
loaded high score; hence across any sequence of `saveHighScore` calls the
loaded high score never decreases. -/
theorem storage_spec :
    (∀ store : Store, 0 ≤ loadHighScore store) ∧
    loadHighScore (none : Store) = 0 ∧
    loadHighScore (some (none : Option Int)) = 0 ∧
    (∀ n : Int, n < 0 → loadHighScore (some (some n)) = 0) ∧
    (∀ (score : Int) (store : Store), saveHighScore score store ≠ store →
        0 ≤ score ∧ loadHighScore store < score) ∧
    (∀ (store : Store) (scores : List Int),
        loadHighScore store ≤
          loadHighScore (scores.foldl (fun st sc => saveHighScore sc st) store)) := by
  refine ⟨?_, rfl, rfl, ?_, ?_, ?_⟩
  · intro store
    rcases store with _ | _ | n
    · exact le_refl _
    · exact le_refl _
    · simp only [loadHighScore]
      split_ifs with hn
      · exact hn
      · exact le_refl _
  · intro n hn
    simp only [loadHighScore]
    rw [if_neg (by omega)]
  · intro score store hchange
    unfold saveHighScore at hchange
    split_ifs at hchange with hneg hlt
    · exact absurd rfl hchange
    · exact ⟨by omega, hlt⟩
    · exact absurd rfl hchange
  · intro store scores
    induction scores generalizing store with
    | nil => exact le_refl _
    | cons sc rest ih =>
      exact le_trans (loadHighScore_le_save sc store)
        (ih (saveHighScore sc store))

/-- Witness for C10: a negative parsed value loads as 0, and a successful
save of 5 over an empty cell implies 5 was non-negative and exceeded the
previous loaded value. -/
theorem storage_spec_witness :
    loadHighScore (some (some (-3))) = 0 ∧
    (0 ≤ (5 : Int) ∧ loadHighScore (none : Store) < 5) :=
  ⟨storage_spec.2.2.2.1 (-3) (by decide),
   storage_spec.2.2.2.2.1 5 none (by decide)⟩

/-- `coordsEqual` decides structural equality of coordinates. -/
theorem coordsEqual_iff (a b : Coord) : coordsEqual a b = true ↔ a = b := by
  obtain ⟨ax, ay⟩ := a
  obtain ⟨bx, by'⟩ := b
  simp [coordsEqual, Coord.mk.injEq]

/-- `coordInList` decides list membership of a coordinate. -/
theorem coordInList_iff (c : Coord) (l : List Coord) :
    coordInList c l = true ↔ c ∈ l := by
  simp only [coordInList, List.any_eq_true, coordsEqual_iff]
  constructor
  · rintro ⟨cell, hmem, rfl⟩
    exact hmem
  · intro hmem
    exact ⟨c, hmem, rfl⟩

/-- The row-major enumeration of `Food.spawn` lists exactly the grid. -/
theorem mem_allCells {n : Nat} {c : Coord} : c ∈ allCells n ↔ inGrid n c := by
  obtain ⟨x, y⟩ := c
  unfold allCells inGrid
  rw [List.mem_flatMap]
  constructor
  · rintro ⟨a, ha, hmem⟩
    rw [List.mem_map] at hmem
    obtain ⟨b, hb, heq⟩ := hmem
    rw [List.mem_range] at ha hb
    cases heq
    dsimp only
    exact ⟨by omega, by omega, by omega, by omega⟩
  · dsimp only
    rintro ⟨hx0, hxn, hy0, hyn⟩
    refine ⟨y.toNat, ?_, ?_⟩
    · rw [List.mem_range]; omega
    · rw [List.mem_map]
      refine ⟨x.toNat, ?_, ?_⟩
      · rw [List.mem_range]; omega
      · show Coord.mk _ _ = Coord.mk x y
        congr 1 <;> omega

/-- Characterisation of the free-cell list: in the grid and unoccupied. -/
theorem mem_freeCellsOf {n : Nat} {occ : List Coord} {c : Coord} :
    c ∈ freeCellsOf n occ ↔ inGrid n c ∧ c ∉ occ := by
  simp only [freeCellsOf, List.mem_filter, mem_allCells, Bool.not_eq_true',
    ← Bool.not_eq_true, coordInList_iff]

/-- C7: whenever some grid cell is not in the occupied list, `spawn` puts
the food on a grid cell outside the occupied list and leaves it active; when
the occupied list covers every grid cell, `spawn` sets the position to
`null` and the food is inactive.  The random draw is abstracted by the
`pick` index. -/
theorem spawn_spec (f : Food) (occupied : List Coord) (pick : Nat)
    (_hgrid : 1 ≤ f.gridSize) :
    ((∃ c : Coord, inGrid f.gridSize c ∧ c ∉ occupied) →
       ∃ p : Coord, (f.spawn occupied pick).position = some p ∧
         inGrid f.gridSize p ∧ p ∉ occupied ∧
         (f.spawn occupied pick).isActive = true) ∧
    ((∀ c : Coord, inGrid f.gridSize c → c ∈ occupied) →
       (f.spawn occupied pick).position = none ∧
       (f.spawn occupied pick).isActive = false) := by
  constructor
  · rintro ⟨c, hc, hocc⟩
    have hmem : c ∈ freeCellsOf f.gridSize occupied :=
      mem_freeCellsOf.mpr ⟨hc, hocc⟩
    have hlen : (freeCellsOf f.gridSize occupied).length ≠ 0 := by
      intro h0
      rw [List.length_eq_zero] at h0
      rw [h0] at hmem
      exact absurd hmem (List.not_mem_nil c)
    have hidx : pick % (freeCellsOf f.gridSize occupied).length <
        (freeCellsOf f.gridSize occupied).length :=
      Nat.mod_lt _ (Nat.pos_of_ne_zero hlen)
    have hmem2 : (freeCellsOf f.gridSize occupied).getD
        (pick % (freeCellsOf f.gridSize occupied).length) ⟨0, 0⟩ ∈
        freeCellsOf f.gridSize occupied := by
      rw [List.getD_eq_getElem _ _ hidx]
      exact List.getElem_mem hidx
    obtain ⟨hin, hnocc⟩ := mem_freeCellsOf.mp hmem2
    refine ⟨_, ?_, hin, hnocc, ?_⟩ <;>
      simp only [Food.spawn, if_neg hlen, Food.isActive, Option.isSome_some]
  · intro hall
    have h0 : freeCellsOf f.gridSize occupied = [] := by
      rw [List.eq_nil_iff_forall_not_mem]
      intro c hc
      obtain ⟨hcg, hcno⟩ := mem_freeCellsOf.mp hc
      exact hcno (hall c hcg)
    simp only [Food.spawn, h0, List.length_nil, if_pos rfl]
    exact ⟨rfl, rfl⟩

/-- Witness for C7: on a 2×2 grid with only the origin occupied, `spawn`
lands on a free in-grid cell and is active; with all four cells occupied it
deactivates. -/
theorem spawn_spec_witness :
    (∃ p : Coord, ((⟨2, none⟩ : Food).spawn [⟨0, 0⟩] 0).position = some p ∧
        inGrid 2 p ∧ p ∉ [(⟨0, 0⟩ : Coord)] ∧
        ((⟨2, none⟩ : Food).spawn [⟨0, 0⟩] 0).isActive = true) ∧
    (((⟨2, none⟩ : Food).spawn [⟨0, 0⟩, ⟨1, 0⟩, ⟨0, 1⟩, ⟨1, 1⟩] 0).position = none ∧
     ((⟨2, none⟩ : Food).spawn [⟨0, 0⟩, ⟨1, 0⟩, ⟨0, 1⟩, ⟨1, 1⟩] 0).isActive = false) := by
  constructor
  · exact (spawn_spec ⟨2, none⟩ [⟨0, 0⟩] 0 (by decide)).1
      ⟨⟨1, 0⟩, by decide, by decide⟩
  · refine (spawn_spec ⟨2, none⟩ [⟨0, 0⟩, ⟨1, 0⟩, ⟨0, 1⟩, ⟨1, 1⟩] 0 (by decide)).2 ?_
    intro c hc
    obtain ⟨x, y⟩ := c
    dsimp only [inGrid] at hc
    obtain ⟨h1, h2, h3, h4⟩ := hc
    have hx : x = 0 ∨ x = 1 := by omega
    have hy : y = 0 ∨ y = 1 := by omega
    rcases hx with rfl | rfl <;> rcases hy with rfl | rfl <;> simp

/-- Dropping the tail of a contiguous body keeps it contiguous. -/
theorem contiguous_dropLast {l : List Coord} (h : contiguous l) :
    contiguous l.dropLast := by
  rw [contiguous, List.dropLast_eq_take]
  exact List.Chain'.take h _

/-- The head written by `move` is adjacent to the cell it was computed
from: direction deltas are unit vectors. -/
theorem adjacent_step (c : Coord) (d : Dir) :
    adjacentCells ⟨c.x + d.dx, c.y + d.dy⟩ c := by
  cases d <;> simp [adjacentCells, Dir.dx, Dir.dy]

/-- Each snake operation preserves contiguity of the body. -/
theorem contiguous_applySnakeOp {s : Snake} (h : contiguous s.body)
    (op : SnakeOp) : contiguous (applySnakeOp s op).body := by
  cases op with
  | enq d =>
    show contiguous (s.enqueueDirection d).body
    simp only [Snake.enqueueDirection]
    split_ifs <;> exact h
  | growOp => exact h
  | moveOp =>
    show contiguous ((s.move).2.body)
    have hchain : contiguous
        (⟨(s.body.headD ⟨0, 0⟩).x + (s.directionQueue.headD s.direction).dx,
          (s.body.headD ⟨0, 0⟩).y + (s.directionQueue.headD s.direction).dy⟩ ::
          s.body) := by
      cases hb : s.body with
      | nil => simp [contiguous]
      | cons a t =>
        refine List.Chain'.cons ?_ (hb ▸ h)
        exact adjacent_step a (s.directionQueue.headD s.direction)
    simp only [Snake.move]
    split_ifs with hp
    · exact hchain
    · exact contiguous_dropLast hchain

/-- Running any operation sequence preserves contiguity. -/
theorem contiguous_runSnakeOps (ops : List SnakeOp) :
    ∀ s : Snake, contiguous s.body → contiguous (runSnakeOps s ops).body := by
  induction ops with
  | nil => exact fun s h => h
  | cons op rest ih =>
    intro s h
    exact ih (applySnakeOp s op) (contiguous_applySnakeOp h op)

/-- C9: starting from the freshly constructed 3-segment snake on any grid,
after any finite sequence of `enqueueDirection`, `grow`, and `move` calls,
every pair of consecutive body segments is at Manhattan distance exactly 1:
growth never introduces a gap or a duplicate between consecutive
segments. -/
theorem snake_body_contiguous (n : Nat) (ops : List SnakeOp) :
    contiguous ((runSnakeOps (Snake.init n) ops).body) := by
  apply contiguous_runSnakeOps
  show List.Chain' adjacentCells [_, _, _]
  refine List.Chain'.cons ?_ (List.Chain'.cons ?_ ?_) <;>
    simp [adjacentCells, Snake.init]

/-- C3: one simulation tick moves the snake first; if the moved snake is
dead, the tick enters GAME_OVER (with the high-score update of `endGame`)
and persists the high score, leaving score, level, and food untouched; if it
survives and the new head is on the active food, the tick grows the snake,
adds the per-food score, and respawns the food against the snake's body —
entering WIN when the respawn finds no free cell, and otherwise changing
neither the screen nor the store; if it survives without eating, only the
snake changes. -/
theorem tick_spec (g : Game) (pick : Nat) :
    ((g.snake.move).2.isDead = true →
       (g.tick pick).state = g.state.endGame ∧
       (g.tick pick).state.screen = .GAME_OVER ∧
       (g.tick pick).state.score = g.state.score ∧
       (g.tick pick).state.level = g.state.level ∧
       (g.tick pick).food = g.food ∧
       (g.tick pick).store =
         saveHighScore (g.state.endGame.highScore : Int) g.store ∧
       (g.tick pick).snake = (g.snake.move).2) ∧
    ((g.snake.move).2.isDead = false →
     g.food.isEatenBy (g.snake.move).1 = true →
       (g.tick pick).snake = ((g.snake.move).2).grow ∧
       (g.tick pick).state.score = g.state.score + POINTS_PER_FOOD ∧
       (g.tick pick).food = g.food.spawn ((g.snake.move).2).body pick ∧
       ((g.tick pick).food.isActive = false →
          (g.tick pick).state.screen = .WIN) ∧
       ((g.tick pick).food.isActive = true →
          (g.tick pick).state.screen = g.state.screen ∧
          (g.tick pick).store = g.store)) ∧
    ((g.snake.move).2.isDead = false →
     g.food.isEatenBy (g.snake.move).1 = false →
       (g.tick pick).snake = (g.snake.move).2 ∧
       (g.tick pick).food = g.food ∧
       (g.tick pick).state = g.state ∧
       (g.tick pick).store = g.store) := by
  have hscore : ∀ st : GameState, st.endGame.score = st.score := by
    intro st
    simp only [GameState.endGame, GameState.updateHighScore]
    split_ifs <;> rfl
  have hlevel : ∀ st : GameState, st.endGame.level = st.level := by
    intro st
    simp only [GameState.endGame, GameState.updateHighScore]
    split_ifs <;> rfl
  have hwinscore : ∀ st : GameState, st.win.score = st.score := by
    intro st
    simp only [GameState.win, GameState.updateHighScore]
    split_ifs <;> rfl
  have hupds : ∀ st : GameState, st.updateHighScore.score = st.score := by
    intro st
    simp only [GameState.updateHighScore]
    split_ifs <;> rfl
  have hupdl : ∀ st : GameState, st.updateHighScore.level = st.level := by
    intro st
    simp only [GameState.updateHighScore]
    split_ifs <;> rfl
  refine ⟨?_, ?_, ?_⟩
  · intro hd
    simp only [Game.tick, hd, if_true]
    simp [hscore, hlevel, GameState.endGame, hupds, hupdl]
  · intro hd he
    simp only [Game.tick, hd, he, Bool.false_eq_true, if_false, if_true]
    split_ifs with hact <;> simp only [Snake.grow] at hact
    · simp [hact, GameState.addScore, Snake.grow]
    · simp [hact, hwinscore, hupds, GameState.addScore, Snake.grow,
        GameState.win]
  · intro hd he
    simp only [Game.tick, hd, he, Bool.false_eq_true, if_false]
    simp

/-- Witness for C3: the three tick branches evaluated on concrete games —
a snake running off the grid, a snake eating the food, and a snake moving
onto an empty cell. -/
theorem tick_spec_witness :
    ((tickDeadGame.tick 0).state = tickDeadGame.state.endGame ∧
     (tickDeadGame.tick 0).state.screen = .GAME_OVER ∧
     (tickDeadGame.tick 0).state.score = tickDeadGame.state.score ∧
     (tickDeadGame.tick 0).state.level = tickDeadGame.state.level ∧
     (tickDeadGame.tick 0).food = tickDeadGame.food ∧
     (tickDeadGame.tick 0).store =
       saveHighScore (tickDeadGame.state.endGame.highScore : Int)
         tickDeadGame.store ∧
     (tickDeadGame.tick 0).snake = (tickDeadGame.snake.move).2) ∧
    ((tickEatGame.tick 0).snake = ((tickEatGame.snake.move).2).grow ∧
     (tickEatGame.tick 0).state.score =
       tickEatGame.state.score + POINTS_PER_FOOD ∧
     (tickEatGame.tick 0).food =
       tickEatGame.food.spawn ((tickEatGame.snake.move).2).body 0 ∧
     ((tickEatGame.tick 0).food.isActive = false →
        (tickEatGame.tick 0).state.screen = .WIN) ∧
     ((tickEatGame.tick 0).food.isActive = true →
        (tickEatGame.tick 0).state.screen = tickEatGame.state.screen ∧
        (tickEatGame.tick 0).store = tickEatGame.store)) ∧
    ((tickMissGame.tick 0).snake = (tickMissGame.snake.move).2 ∧
     (tickMissGame.tick 0).food = tickMissGame.food ∧
     (tickMissGame.tick 0).state = tickMissGame.state ∧
     (tickMissGame.tick 0).store = tickMissGame.store) :=
  ⟨(tick_spec tickDeadGame 0).1 (by decide),
   (tick_spec tickEatGame 0).2.1 (by decide) (by decide),
   (tick_spec tickMissGame 0).2.2 (by decide) (by decide)⟩

end SnakeGame
